import Mathlib

/-! Call-trace model of `AppBridge` (libappbridge).

Shallow embedding of `src/src/libappbridge.cpp` and `src/src/libappbridge.h`.

The bridge talks to three external services (the ILM surface controller, the
window-manager client `m_wm`, the home-screen client `m_hs`) and to one
delegate.  Every call that leaves the bridge is recorded, in program order, as
a `Call`; a member function becomes a function from the bridge state to the new
state and the list of calls it made.  The `AGL_DEBUG` lines only write text to
stderr and are not part of the call trace.
-/

namespace LibAppBridge

/-! ## Data model -/

/-- The area every activation asks for (`kAreaNormalFull`, libappbridge.cpp:40). -/
def kAreaNormalFull : String := "normal.full"

/-- The object kinds of an ILM notification (`ilmObjectType`). -/
inductive ilmObjectType where
  | ILM_SURFACE
  | ILM_LAYER
  deriving DecidableEq, Repr

/-- The implicit conversion of a `t_ilm_uint` (32 bit, unsigned) to the `int`
parameter of `OnSurfaceCreated`, `OnSurfaceDestroyed`, `OnRequestedSurfaceID`
and `SetupSurface`: values from `2^31` on wrap to negative numbers. -/
def uintToInt (id : Nat) : Int :=
  if id % 2 ^ 32 < 2 ^ 31 then ((id % 2 ^ 32 : Nat) : Int)
  else ((id % 2 ^ 32 : Nat) : Int) - 2 ^ 32

/-- One call leaving the bridge: to the ILM controller, to a delegate callback,
or to the window-manager client. -/
inductive Call where
  | ilm_getPropertiesOfSurface (id : Nat)
  | OnActive
  | OnInactive
  | OnVisible
  | OnInvisible
  | OnSyncDraw
  | OnFlushDraw
  | OnTabShortcut
  | OnScreenMessage (message : String)
  | OnSurfaceCreated (id : Int) (surface_pid : Int)
  | OnSurfaceDestroyed (id : Int) (surface_pid : Int)
  | OnRequestedSurfaceID (id : Int)
  | requestSurfaceXDG (role : String) (id : Int)
  | activateWindow (role : String) (area : String)
  | endDraw (role : String)
  deriving DecidableEq, Repr

/-- A delegate (`AppBridgeDelegate`, libappbridge.h:31-45).  All callbacks return
`void`; the only one that hands data back is `OnRequestedSurfaceID`, through its
output pointer: `some pid` when the callback stores `pid` there, `none` when it
leaves the pointee untouched. -/
structure AppBridgeDelegate where
  OnRequestedSurfaceID : Int → Option Int

/-- The delegate whose callbacks are the empty default bodies of the header. -/
def AppBridgeDelegate.default : AppBridgeDelegate :=
  { OnRequestedSurfaceID := fun _ => none }

/-- The data members of `AppBridge` (libappbridge.h:63-77).  `m_wm` and `m_hs`
are handles to the external clients; calls through them appear in the trace.
`m_delegate` is a raw pointer: `none` is the null pointer. -/
structure AppBridge where
  m_role : String
  m_path : String
  m_id : String
  m_name : String
  m_port : Int
  m_token : String
  m_pending_create : Bool
  m_delegate : Option AppBridgeDelegate

/-- An event handler as stored by `set_event_handler`: it captures `this` and
runs on the bridge state of the moment. -/
abbrev Handler := AppBridge → AppBridge × List Call

/-- The event kinds of `LibWindowmanager` the bridge registers for. -/
inductive WMEvent where
  | Event_Active
  | Event_Inactive
  | Event_Visible
  | Event_Invisible
  | Event_SyncDraw
  | Event_FlushDraw
  deriving DecidableEq, Repr

/-- The event kinds of `LibHomeScreen` the bridge registers for. -/
inductive HSEvent where
  | Event_TapShortcut
  | Event_OnScreenMessage
  deriving DecidableEq, Repr

/-! ## Operations -/

/-- `AppBridge::SetupSurface` (libappbridge.cpp:257-267). -/
def SetupSurface (self : AppBridge) (id : Int) : AppBridge × List Call :=
  let t := [Call.requestSurfaceXDG self.m_role id]
  if self.m_pending_create then
    (self, t ++ [Call.activateWindow self.m_role kAreaNormalFull])
  else
    (self, t)

/-- `AppBridge::OnIviControlUpdated` (libappbridge.cpp:95-128).

`ilm id` is the value `surf_pid` holds after `ilm_getPropertiesOfSurface(id, ..)`
and the conversion to `pid_t`.  `uninit` is the indeterminate content of the
local `found_surface_id`, which is declared without an initialiser and keeps
that content when the delegate does not write through the pointer.  The result
is `none` when `m_delegate` is null and gets dereferenced. -/
def OnIviControlUpdated (ilm : Nat → Int) (uninit : Int) (self : AppBridge)
    (object : ilmObjectType) (id : Nat) (created : Bool) :
    Option (AppBridge × List Call) :=
  match object with
  | .ILM_SURFACE =>
    let t0 := [Call.ilm_getPropertiesOfSurface id]
    let surf_pid := ilm id
    match self.m_delegate with
    | none => none
    | some delegate =>
      if !created then
        some (self, t0 ++ [Call.OnSurfaceDestroyed (uintToInt id) surf_pid])
      else
        let t1 := t0 ++ [Call.OnSurfaceCreated (uintToInt id) surf_pid,
                         Call.OnRequestedSurfaceID (uintToInt id)]
        let found_surface_id :=
          match delegate.OnRequestedSurfaceID (uintToInt id) with
          | some pid => pid
          | none => uninit
        if surf_pid = found_surface_id then
          let r := SetupSurface self (uintToInt id)
          some (r.1, t1 ++ r.2)
        else
          some (self, t1)
  | .ILM_LAYER => some (self, [])

/-- `AppBridge::IviControlCallback` (libappbridge.cpp:130-135): `user_data` is
the bridge. -/
def IviControlCallback (ilm : Nat → Int) (uninit : Int) (object : ilmObjectType)
    (id : Nat) (created : Bool) (user_data : AppBridge) :
    Option (AppBridge × List Call) :=
  OnIviControlUpdated ilm uninit user_data object id created

/-- Handler `h_active` of `InitWindowManager` (libappbridge.cpp:145-149). -/
def h_active : Handler := fun self =>
  if self.m_delegate.isSome then (self, [Call.OnActive]) else (self, [])

/-- Handler `h_inactive` of `InitWindowManager` (libappbridge.cpp:151-155). -/
def h_inactive : Handler := fun self =>
  if self.m_delegate.isSome then (self, [Call.OnInactive]) else (self, [])

/-- Handler `h_visible` of `InitWindowManager` (libappbridge.cpp:157-161). -/
def h_visible : Handler := fun self =>
  if self.m_delegate.isSome then (self, [Call.OnVisible]) else (self, [])

/-- Handler `h_invisible` of `InitWindowManager` (libappbridge.cpp:163-167). -/
def h_invisible : Handler := fun self =>
  if self.m_delegate.isSome then (self, [Call.OnInvisible]) else (self, [])

/-- Handler `h_syncdraw` of `InitWindowManager` (libappbridge.cpp:169-176). -/
def h_syncdraw : Handler := fun self =>
  let t := [Call.endDraw self.m_role]
  if self.m_delegate.isSome then (self, t ++ [Call.OnSyncDraw]) else (self, t)

/-- Handler `h_flushdraw` of `InitWindowManager` (libappbridge.cpp:178-182). -/
def h_flushdraw : Handler := fun self =>
  if self.m_delegate.isSome then (self, [Call.OnFlushDraw]) else (self, [])

/-- `AppBridge::InitWindowManager` (libappbridge.cpp:137-192).  `wm_init` is the
value `m_wm->init(m_port, m_token)` returns.  The result is the return code and
the handler table left in the client by the `set_event_handler` calls. -/
def InitWindowManager (wm_init : Int) : Int × (WMEvent → Option Handler) :=
  if wm_init ≠ 0 then
    (-1, fun _ => none)
  else
    (0, fun e =>
      match e with
      | .Event_Active => some h_active
      | .Event_Inactive => some h_inactive
      | .Event_Visible => some h_visible
      | .Event_Invisible => some h_invisible
      | .Event_SyncDraw => some h_syncdraw
      | .Event_FlushDraw => some h_flushdraw)

/-- Handler `handler` of `InitHomeScreen` for `Event_TapShortcut`
(libappbridge.cpp:202-208). -/
def handler : Handler := fun self =>
  let t := [Call.activateWindow self.m_role kAreaNormalFull]
  if self.m_delegate.isSome then (self, t ++ [Call.OnTabShortcut]) else (self, t)

/-- Handler `h_default` of `InitHomeScreen` for `Event_OnScreenMessage`
(libappbridge.cpp:212-217); `j_str` is `json_object_to_json_string(object)`. -/
def h_default (j_str : String) : Handler := fun self =>
  if self.m_delegate.isSome then (self, [Call.OnScreenMessage j_str]) else (self, [])

/-- `AppBridge::InitHomeScreen` (libappbridge.cpp:194-221).  `hs_init` is the
value `m_hs->init(m_port, m_token)` returns; the message handler receives the
serialised payload. -/
def InitHomeScreen (hs_init : Int) : Int × (HSEvent → Option (String → Handler)) :=
  if hs_init ≠ 0 then
    (-1, fun _ => none)
  else
    (0, fun e =>
      match e with
      | .Event_TapShortcut => some (fun _ => handler)
      | .Event_OnScreenMessage => some h_default)

/-- `InitIlmControl` (libappbridge.cpp:68-79).  The two flags say whether
`ilm_init` and `ilm_registerNotification` return `ILM_SUCCESS`.  `AGL_FATAL`
ends the process, so a failure yields `none` and the `return -1` behind it is
never reached. -/
def InitIlmControl (ilm_init_ok : Bool) (ilm_register_ok : Bool) : Option Int :=
  if !ilm_init_ok then none
  else if !ilm_register_ok then none
  else some 0

/-- The constructor `AppBridge::AppBridge` (libappbridge.cpp:223-246).  `none`
stands for the process ending, by the failed `assert` or by `AGL_FATAL`.
`ndebug` says whether the translation unit is compiled with `NDEBUG`, which
turns `assert(delegate)` into nothing. -/
def AppBridge.construct (ndebug : Bool) (port : Int) (token : String) (id : String)
    (role : String) (delegate : Option AppBridgeDelegate) (wm_init : Int) (hs_init : Int)
    (ilm_init_ok : Bool) (ilm_register_ok : Bool) : Option AppBridge :=
  if !ndebug && delegate.isNone then none
  else
    let self : AppBridge :=
      { m_role := role, m_path := "", m_id := id, m_name := "", m_port := port,
        m_token := token, m_pending_create := false, m_delegate := delegate }
    if (InitWindowManager wm_init).1 ≠ 0 then none
    else if (InitHomeScreen hs_init).1 ≠ 0 then none
    else
      match InitIlmControl ilm_init_ok ilm_register_ok with
      | none => none
      | some rc =>
        if rc ≠ 0 then none
        else some { self with m_pending_create := true }

/-! ## Trace predicates -/

/-- The call is the binding request `requestSurfaceXDG`. -/
def Call.isBinding : Call → Bool
  | .requestSurfaceXDG _ _ => true
  | _ => false

/-- The call is `activateWindow`. -/
def Call.isActivation : Call → Bool
  | .activateWindow _ _ => true
  | _ => false

/-- The call goes to the window-manager client. -/
def Call.isWindowManager : Call → Bool
  | .requestSurfaceXDG _ _ => true
  | .activateWindow _ _ => true
  | .endDraw _ => true
  | _ => false

/-- The call is a delegate callback. -/
def Call.isDelegate : Call → Bool
  | .OnActive => true
  | .OnInactive => true
  | .OnVisible => true
  | .OnInvisible => true
  | .OnSyncDraw => true
  | .OnFlushDraw => true
  | .OnTabShortcut => true
  | .OnScreenMessage _ => true
  | .OnSurfaceCreated _ _ => true
  | .OnSurfaceDestroyed _ _ => true
  | .OnRequestedSurfaceID _ => true
  | _ => false

/-- A delegate that answers `OnRequestedSurfaceID` with the same process id for
every surface. -/
def waitingFor (pid : Int) : AppBridgeDelegate :=
  { OnRequestedSurfaceID := fun _ => some pid }

/-- The bridge the constructor builds for role `mediaplayer` around `delegate`. -/
def mediaplayer (delegate : Option AppBridgeDelegate) : AppBridge :=
  { m_role := "mediaplayer", m_path := "", m_id := "app", m_name := "", m_port := 1700,
    m_token := "tok", m_pending_create := true, m_delegate := delegate }

/-- A bridge as it is before the constructor body reaches its last line: the
in-class initialiser `m_pending_create = false` still holds. -/
def notPending (delegate : Option AppBridgeDelegate) : AppBridge :=
  { mediaplayer delegate with m_pending_create := false }

/-! ## General facts -/

/-- Below `2^31` the conversion to `int` keeps the value of the id. -/
theorem uintToInt_of_lt (id : Nat) (h : id < 2 ^ 31) : uintToInt id = (id : Int) := by
  have h32 : id % 2 ^ 32 = id := Nat.mod_eq_of_lt (by omega)
  unfold uintToInt
  rw [h32, if_pos h]

/-- The conversion to `int` loses nothing: reduced modulo `2^32` the result is
the 32-bit id again, which is what an `unsigned` parameter receives. -/
theorem uintToInt_emod (id : Nat) : uintToInt id % 2 ^ 32 = ((id % 2 ^ 32 : Nat) : Int) := by
  unfold uintToInt
  split <;> omega

/-- `SetupSurface` writes no data member, `m_pending_create` included. -/
theorem SetupSurface_state (self : AppBridge) (id : Int) : (SetupSurface self id).1 = self := by
  unfold SetupSurface
  split <;> rfl

/-- The trace of `SetupSurface`: the binding request, followed by the activation
exactly when `m_pending_create` is set. -/
theorem SetupSurface_trace (self : AppBridge) (id : Int) :
    (SetupSurface self id).2 =
      Call.requestSurfaceXDG self.m_role id ::
        (if self.m_pending_create then [Call.activateWindow self.m_role kAreaNormalFull]
         else []) := by
  unfold SetupSurface
  split <;> simp

/-- No notification changes the bridge: whenever `OnIviControlUpdated` returns,
every data member has the value it had before. -/
theorem OnIviControlUpdated_state (ilm : Nat → Int) (uninit : Int) (self : AppBridge)
    (object : ilmObjectType) (id : Nat) (created : Bool) (r : AppBridge × List Call)
    (h : OnIviControlUpdated ilm uninit self object id created = some r) : r.1 = self := by
  unfold OnIviControlUpdated at h
  cases object with
  | ILM_LAYER =>
    simp only [Option.some.injEq] at h
    rw [← h]
  | ILM_SURFACE =>
    cases hd : self.m_delegate with
    | none => simp [hd] at h
    | some d =>
      simp only [hd] at h
      split at h
      · simp only [Option.some.injEq] at h
        rw [← h]
      · split at h
        · simp only [Option.some.injEq] at h
          rw [← h]
          exact SetupSurface_state self (uintToInt id)
        · simp only [Option.some.injEq] at h
          rw [← h]

/-- The constructor stores the role it is given and ends with
`m_pending_create` set. -/
theorem construct_role_pending (ndebug : Bool) (port : Int) (token id role : String)
    (delegate : Option AppBridgeDelegate) (wm_init hs_init : Int)
    (ilm_init_ok ilm_register_ok : Bool) (self : AppBridge)
    (h : AppBridge.construct ndebug port token id role delegate wm_init hs_init
      ilm_init_ok ilm_register_ok = some self) :
    self.m_role = role ∧ self.m_pending_create = true ∧ self.m_delegate = delegate := by
  unfold AppBridge.construct at h
  split at h
  · simp at h
  · simp only at h
    split at h
    · simp at h
    · split at h
      · simp at h
      · split at h
        · simp at h
        · split at h
          · simp at h
          · simp only [Option.some.injEq] at h
            rw [← h]
            exact ⟨rfl, rfl, rfl⟩

/-- With assertions enabled the constructor never yields a bridge whose
delegate is null. -/
theorem construct_delegate_isSome (port : Int) (token id role : String)
    (delegate : Option AppBridgeDelegate) (wm_init hs_init : Int)
    (ilm_init_ok ilm_register_ok : Bool) (self : AppBridge)
    (h : AppBridge.construct false port token id role delegate wm_init hs_init
      ilm_init_ok ilm_register_ok = some self) :
    self.m_delegate.isSome = true := by
  have hd := (construct_role_pending false port token id role delegate wm_init hs_init
    ilm_init_ok ilm_register_ok self h).2.2
  cases delegate with
  | none => simp [AppBridge.construct] at h
  | some d => simp [hd]

/-- When every service comes up, the constructor yields the bridge `mediaplayer`. -/
theorem construct_mediaplayer (ndebug : Bool) (d : AppBridgeDelegate) :
    AppBridge.construct ndebug 1700 "tok" "app" "mediaplayer" (some d) 0 0 true true =
      some (mediaplayer (some d)) := by
  cases ndebug <;> rfl

/-- The whole effect of a surface-creation notification on a bridge that has a
delegate: the property lookup, the two delegate callbacks, and the calls of
`SetupSurface` exactly when the owning process id equals the content of
`found_surface_id`. -/
theorem OnIviControlUpdated_created (ilm : Nat → Int) (uninit : Int) (self : AppBridge)
    (d : AppBridgeDelegate) (id : Nat) (hd : self.m_delegate = some d) :
    OnIviControlUpdated ilm uninit self .ILM_SURFACE id true =
      some (self,
        [Call.ilm_getPropertiesOfSurface id, Call.OnSurfaceCreated (uintToInt id) (ilm id),
         Call.OnRequestedSurfaceID (uintToInt id)] ++
        (if ilm id = (d.OnRequestedSurfaceID (uintToInt id)).getD uninit then
           Call.requestSurfaceXDG self.m_role (uintToInt id) ::
             (if self.m_pending_create then [Call.activateWindow self.m_role kAreaNormalFull]
              else [])
         else [])) := by
  have hfound : (match d.OnRequestedSurfaceID (uintToInt id) with
      | some pid => pid
      | none => uninit) = (d.OnRequestedSurfaceID (uintToInt id)).getD uninit := by
    cases d.OnRequestedSurfaceID (uintToInt id) <;> rfl
  simp only [OnIviControlUpdated, hd, hfound]
  by_cases heq : ilm id = (d.OnRequestedSurfaceID (uintToInt id)).getD uninit
  · simp [heq, SetupSurface_state, SetupSurface_trace]
  · simp [heq]

/-- The whole effect of a surface-destruction notification on a bridge that has
a delegate. -/
theorem OnIviControlUpdated_destroyed (ilm : Nat → Int) (uninit : Int) (self : AppBridge)
    (d : AppBridgeDelegate) (id : Nat) (hd : self.m_delegate = some d) :
    OnIviControlUpdated ilm uninit self .ILM_SURFACE id false =
      some (self,
        [Call.ilm_getPropertiesOfSurface id,
         Call.OnSurfaceDestroyed (uintToInt id) (ilm id)]) := by
  simp [OnIviControlUpdated, hd]

/-! ## The claims -/

/-- C1, evaluated on the code.  A bridge is constructed for role `mediaplayer`
with a delegate waiting for process 1234, and two created surfaces (ids 7 and 8)
of process 1234 are reported.  The flag is set after construction, the first
notification binds and activates and hands back the bridge with the flag still
set, and the second notification, delivered to that bridge, binds surface 8
and issues `activateWindow` once more. -/
theorem C1_second_creation_activates_again :
    AppBridge.construct false 1700 "tok" "app" "mediaplayer" (some (waitingFor 1234))
        0 0 true true = some (mediaplayer (some (waitingFor 1234))) ∧
    (mediaplayer (some (waitingFor 1234))).m_pending_create = true ∧
    OnIviControlUpdated (fun _ => 1234) 0 (mediaplayer (some (waitingFor 1234)))
        .ILM_SURFACE 7 true =
      some (mediaplayer (some (waitingFor 1234)),
        [Call.ilm_getPropertiesOfSurface 7, Call.OnSurfaceCreated 7 1234,
         Call.OnRequestedSurfaceID 7, Call.requestSurfaceXDG "mediaplayer" 7,
         Call.activateWindow "mediaplayer" "normal.full"]) ∧
    OnIviControlUpdated (fun _ => 1234) 0 (mediaplayer (some (waitingFor 1234)))
        .ILM_SURFACE 8 true =
      some (mediaplayer (some (waitingFor 1234)),
        [Call.ilm_getPropertiesOfSurface 8, Call.OnSurfaceCreated 8 1234,
         Call.OnRequestedSurfaceID 8, Call.requestSurfaceXDG "mediaplayer" 8,
         Call.activateWindow "mediaplayer" "normal.full"]) :=
  ⟨rfl, rfl, rfl, rfl⟩

/-- C2.  A created surface whose owning process id differs from the process id
the delegate stores in `OnRequestedSurfaceID` makes `OnIviControlUpdated` call
the property lookup, `OnSurfaceCreated(id, ownerPid)` and `OnRequestedSurfaceID`
and nothing else: no call reaches the window manager (no binding, no
activation), and the bridge, `m_pending_create` included, is unchanged. -/
theorem C2_other_process_is_not_bound (ilm : Nat → Int) (uninit : Int) (self : AppBridge)
    (d : AppBridgeDelegate) (id : Nat) (requested : Int)
    (hd : self.m_delegate = some d)
    (hreq : d.OnRequestedSurfaceID (uintToInt id) = some requested)
    (hne : ilm id ≠ requested) :
    ∃ s1 t, OnIviControlUpdated ilm uninit self .ILM_SURFACE id true = some (s1, t) ∧
      s1 = self ∧ s1.m_pending_create = self.m_pending_create ∧
      t = [Call.ilm_getPropertiesOfSurface id,
           Call.OnSurfaceCreated (uintToInt id) (ilm id),
           Call.OnRequestedSurfaceID (uintToInt id)] ∧
      t.filter Call.isDelegate =
        [Call.OnSurfaceCreated (uintToInt id) (ilm id),
         Call.OnRequestedSurfaceID (uintToInt id)] ∧
      t.filter Call.isBinding = [] ∧ t.filter Call.isActivation = [] ∧
      t.filter Call.isWindowManager = [] := by
  refine ⟨self, _, OnIviControlUpdated_created ilm uninit self d id hd, rfl, rfl, ?_⟩
  simp [hreq, hne, Call.isDelegate, Call.isBinding, Call.isActivation, Call.isWindowManager]

/-- C2 at a concrete input: role `mediaplayer`, delegate waiting for process
1234, surface 8 created by process 9999. -/
theorem C2_other_process_is_not_bound_witness :
    (mediaplayer (some (waitingFor 1234))).m_delegate = some (waitingFor 1234) ∧
    (waitingFor 1234).OnRequestedSurfaceID (uintToInt 8) = some 1234 ∧
    (fun _ : Nat => (9999 : Int)) 8 ≠ 1234 ∧
    ∃ s1 t, OnIviControlUpdated (fun _ => 9999) 0 (mediaplayer (some (waitingFor 1234)))
        .ILM_SURFACE 8 true = some (s1, t) ∧
      s1 = mediaplayer (some (waitingFor 1234)) ∧
      s1.m_pending_create = (mediaplayer (some (waitingFor 1234))).m_pending_create ∧
      t = [Call.ilm_getPropertiesOfSurface 8,
           Call.OnSurfaceCreated (uintToInt 8) ((fun _ : Nat => (9999 : Int)) 8),
           Call.OnRequestedSurfaceID (uintToInt 8)] ∧
      t.filter Call.isDelegate =
        [Call.OnSurfaceCreated (uintToInt 8) ((fun _ : Nat => (9999 : Int)) 8),
         Call.OnRequestedSurfaceID (uintToInt 8)] ∧
      t.filter Call.isBinding = [] ∧ t.filter Call.isActivation = [] ∧
      t.filter Call.isWindowManager = [] :=
  ⟨rfl, rfl, by decide,
    C2_other_process_is_not_bound (fun _ => 9999) 0 (mediaplayer (some (waitingFor 1234)))
      (waitingFor 1234) 8 1234 rfl rfl (by decide)⟩

/-- C3.  A created surface whose owning process id equals the process id the
delegate stores in `OnRequestedSurfaceID` makes `OnIviControlUpdated` issue
exactly one binding call, `requestSurfaceXDG(m_role, id)`, with the bridge's
role and the notification's id as it arrives in the `int` parameter of
`SetupSurface`. -/
theorem C3_matching_process_is_bound_once (ilm : Nat → Int) (uninit : Int)
    (self : AppBridge) (d : AppBridgeDelegate) (id : Nat)
    (hd : self.m_delegate = some d)
    (hreq : d.OnRequestedSurfaceID (uintToInt id) = some (ilm id)) :
    ∃ s1 t, OnIviControlUpdated ilm uninit self .ILM_SURFACE id true = some (s1, t) ∧
      t.filter Call.isBinding = [Call.requestSurfaceXDG self.m_role (uintToInt id)] ∧
      t.count (Call.requestSurfaceXDG self.m_role (uintToInt id)) = 1 := by
  refine ⟨self, _, OnIviControlUpdated_created ilm uninit self d id hd, ?_, ?_⟩
  · cases hp : self.m_pending_create <;> simp [hreq, Call.isBinding]
  · cases hp : self.m_pending_create <;> simp [hreq, List.count_cons]

/-- C3 at a concrete input: the bridge the constructor builds for role
`mediaplayer`, delegate waiting for process 1234, surface 7 created by 1234. -/
theorem C3_matching_process_is_bound_once_witness :
    (mediaplayer (some (waitingFor 1234))).m_delegate = some (waitingFor 1234) ∧
    (waitingFor 1234).OnRequestedSurfaceID (uintToInt 7) =
      some ((fun _ : Nat => (1234 : Int)) 7) ∧
    ∃ s1 t, OnIviControlUpdated (fun _ => 1234) 0 (mediaplayer (some (waitingFor 1234)))
        .ILM_SURFACE 7 true = some (s1, t) ∧
      t.filter Call.isBinding =
        [Call.requestSurfaceXDG (mediaplayer (some (waitingFor 1234))).m_role (uintToInt 7)] ∧
      t.count
        (Call.requestSurfaceXDG (mediaplayer (some (waitingFor 1234))).m_role (uintToInt 7))
        = 1 :=
  ⟨rfl, rfl,
    C3_matching_process_is_bound_once (fun _ => 1234) 0 (mediaplayer (some (waitingFor 1234)))
      (waitingFor 1234) 7 rfl rfl⟩

/-- C4.  For a created surface of the requested process the calls of
`OnIviControlUpdated` are, after the property lookup that resolves the owning
process id and in this order, `OnSurfaceCreated(id, ownerPid)`,
`OnRequestedSurfaceID`, `requestSurfaceXDG(role, id)` and, when
`m_pending_create` is set, one `activateWindow(role, "normal.full")`; when the
flag is clear the activation is absent and the rest is the same. -/
theorem C4_matching_creation_call_order (ilm : Nat → Int) (uninit : Int)
    (self : AppBridge) (d : AppBridgeDelegate) (id : Nat)
    (hd : self.m_delegate = some d)
    (hreq : d.OnRequestedSurfaceID (uintToInt id) = some (ilm id)) :
    ∃ s1 t, OnIviControlUpdated ilm uninit self .ILM_SURFACE id true = some (s1, t) ∧
      (self.m_pending_create = true →
        t = [Call.ilm_getPropertiesOfSurface id,
             Call.OnSurfaceCreated (uintToInt id) (ilm id),
             Call.OnRequestedSurfaceID (uintToInt id),
             Call.requestSurfaceXDG self.m_role (uintToInt id),
             Call.activateWindow self.m_role "normal.full"]) ∧
      (self.m_pending_create = false →
        t = [Call.ilm_getPropertiesOfSurface id,
             Call.OnSurfaceCreated (uintToInt id) (ilm id),
             Call.OnRequestedSurfaceID (uintToInt id),
             Call.requestSurfaceXDG self.m_role (uintToInt id)]) := by
  refine ⟨self, _, OnIviControlUpdated_created ilm uninit self d id hd, ?_, ?_⟩
  · intro hp
    simp [hreq, hp, kAreaNormalFull]
  · intro hp
    simp [hreq, hp]

/-- C4 at two concrete inputs: surface 7 of process 1234 reported to the
freshly constructed `mediaplayer` bridge (flag set), and to the same bridge with
the flag clear. -/
theorem C4_matching_creation_call_order_witness :
    (OnIviControlUpdated (fun _ => 1234) 0 (mediaplayer (some (waitingFor 1234)))
        .ILM_SURFACE 7 true).map Prod.snd =
      some [Call.ilm_getPropertiesOfSurface 7, Call.OnSurfaceCreated 7 1234,
            Call.OnRequestedSurfaceID 7, Call.requestSurfaceXDG "mediaplayer" 7,
            Call.activateWindow "mediaplayer" "normal.full"] ∧
    (OnIviControlUpdated (fun _ => 1234) 0 (notPending (some (waitingFor 1234)))
        .ILM_SURFACE 7 true).map Prod.snd =
      some [Call.ilm_getPropertiesOfSurface 7, Call.OnSurfaceCreated 7 1234,
            Call.OnRequestedSurfaceID 7, Call.requestSurfaceXDG "mediaplayer" 7] := by
  obtain ⟨s1, t1, h1, hset, _⟩ :=
    C4_matching_creation_call_order (fun _ => 1234) 0 (mediaplayer (some (waitingFor 1234)))
      (waitingFor 1234) 7 rfl rfl
  obtain ⟨s2, t2, h2, _, hclear⟩ :=
    C4_matching_creation_call_order (fun _ => 1234) 0 (notPending (some (waitingFor 1234)))
      (waitingFor 1234) 7 rfl rfl
  rw [h1, h2, hset rfl, hclear rfl]
  exact ⟨rfl, rfl⟩

/-- C5.  A destroyed surface makes `OnIviControlUpdated` call the property
lookup and then `OnSurfaceDestroyed(id, pid)` once, `pid` being the owning
process id the lookup gave for that id; `OnSurfaceCreated` and
`OnRequestedSurfaceID` are not called, no call reaches the window manager, and
the bridge, `m_pending_create` included, is unchanged. -/
theorem C5_destroyed_surface (ilm : Nat → Int) (uninit : Int) (self : AppBridge)
    (d : AppBridgeDelegate) (id : Nat) (hd : self.m_delegate = some d) :
    ∃ s1 t, OnIviControlUpdated ilm uninit self .ILM_SURFACE id false = some (s1, t) ∧
      s1 = self ∧ s1.m_pending_create = self.m_pending_create ∧
      t = [Call.ilm_getPropertiesOfSurface id,
           Call.OnSurfaceDestroyed (uintToInt id) (ilm id)] ∧
      t.filter Call.isDelegate = [Call.OnSurfaceDestroyed (uintToInt id) (ilm id)] ∧
      t.filter Call.isWindowManager = [] := by
  refine ⟨self, _, OnIviControlUpdated_destroyed ilm uninit self d id hd, rfl, rfl, rfl, ?_⟩
  simp [Call.isDelegate, Call.isWindowManager]

/-- C5 at a concrete input: surface 7, owned by process 1234, is destroyed. -/
theorem C5_destroyed_surface_witness :
    (mediaplayer (some (waitingFor 1234))).m_delegate = some (waitingFor 1234) ∧
    ∃ s1 t, OnIviControlUpdated (fun _ => 1234) 0 (mediaplayer (some (waitingFor 1234)))
        .ILM_SURFACE 7 false = some (s1, t) ∧
      s1 = mediaplayer (some (waitingFor 1234)) ∧
      s1.m_pending_create = (mediaplayer (some (waitingFor 1234))).m_pending_create ∧
      t = [Call.ilm_getPropertiesOfSurface 7,
           Call.OnSurfaceDestroyed (uintToInt 7) ((fun _ : Nat => (1234 : Int)) 7)] ∧
      t.filter Call.isDelegate =
        [Call.OnSurfaceDestroyed (uintToInt 7) ((fun _ : Nat => (1234 : Int)) 7)] ∧
      t.filter Call.isWindowManager = [] :=
  ⟨rfl,
    C5_destroyed_surface (fun _ => 1234) 0 (mediaplayer (some (waitingFor 1234)))
      (waitingFor 1234) 7 rfl⟩

/-- C6.  A layer notification, whatever its id and its created flag and
whether or not the bridge has a delegate, makes `OnIviControlUpdated` return
with an empty call trace (no delegate callback, no window-manager call, no
property lookup) and the bridge unchanged. -/
theorem C6_layer_is_ignored (ilm : Nat → Int) (uninit : Int) (self : AppBridge)
    (id : Nat) (created : Bool) :
    OnIviControlUpdated ilm uninit self .ILM_LAYER id created = some (self, []) :=
  rfl

/-- C7.  The handler `InitWindowManager` registers for `Event_SyncDraw` calls
`endDraw(m_role)` first and the delegate's `OnSyncDraw` second, each once, and
nothing else; the bridge is unchanged. -/
theorem C7_syncdraw_ends_draw_first (self : AppBridge) (d : AppBridgeDelegate)
    (hd : self.m_delegate = some d) :
    ∃ h, (InitWindowManager 0).2 .Event_SyncDraw = some h ∧
      h self = (self, [Call.endDraw self.m_role, Call.OnSyncDraw]) := by
  refine ⟨h_syncdraw, rfl, ?_⟩
  simp [h_syncdraw, hd]

/-- C7 at a concrete input: the freshly constructed `mediaplayer` bridge. -/
theorem C7_syncdraw_ends_draw_first_witness :
    (mediaplayer (some (waitingFor 1234))).m_delegate = some (waitingFor 1234) ∧
    ∃ h, (InitWindowManager 0).2 .Event_SyncDraw = some h ∧
      h (mediaplayer (some (waitingFor 1234))) =
        (mediaplayer (some (waitingFor 1234)),
          [Call.endDraw (mediaplayer (some (waitingFor 1234))).m_role, Call.OnSyncDraw]) :=
  ⟨rfl, C7_syncdraw_ends_draw_first (mediaplayer (some (waitingFor 1234))) (waitingFor 1234) rfl⟩

/-- C8.  The handler `InitHomeScreen` registers for `Event_TapShortcut` calls
`activateWindow(m_role, "normal.full")` once and then the delegate's
`OnTabShortcut`, whatever the value of `m_pending_create`; it issues no binding
call and leaves the bridge, `m_pending_create` included, unchanged. -/
theorem C8_tap_shortcut_activates (self : AppBridge) (d : AppBridgeDelegate)
    (payload : String) (hd : self.m_delegate = some d) :
    ∃ h, (InitHomeScreen 0).2 .Event_TapShortcut = some h ∧
      h payload self =
        (self, [Call.activateWindow self.m_role "normal.full", Call.OnTabShortcut]) := by
  refine ⟨fun _ => handler, rfl, ?_⟩
  simp [handler, hd, kAreaNormalFull]

/-- C8 at a concrete input: the freshly constructed `mediaplayer` bridge, to
which no surface was ever reported. -/
theorem C8_tap_shortcut_activates_witness :
    (mediaplayer (some (waitingFor 1234))).m_delegate = some (waitingFor 1234) ∧
    (mediaplayer (some (waitingFor 1234))).m_pending_create = true ∧
    ∃ h, (InitHomeScreen 0).2 .Event_TapShortcut = some h ∧
      h "" (mediaplayer (some (waitingFor 1234))) =
        (mediaplayer (some (waitingFor 1234)),
          [Call.activateWindow (mediaplayer (some (waitingFor 1234))).m_role "normal.full",
           Call.OnTabShortcut]) :=
  ⟨rfl, rfl,
    C8_tap_shortcut_activates (mediaplayer (some (waitingFor 1234))) (waitingFor 1234) "" rfl⟩

/-- C9 as stated fails: on a bridge whose delegate is null the `Event_SyncDraw`
handler still calls `endDraw` on the window-manager client. -/
theorem C9_syncdraw_null_delegate_calls_endDraw :
    (mediaplayer none).m_delegate = none ∧
    (InitWindowManager 0).2 .Event_SyncDraw = some h_syncdraw ∧
    h_syncdraw (mediaplayer none) = (mediaplayer none, [Call.endDraw "mediaplayer"]) ∧
    (h_syncdraw (mediaplayer none)).2 ≠ [] :=
  ⟨rfl, rfl, rfl, by decide⟩

/-- C9 as amended.  With a null delegate each of the six window-manager
handlers invokes no delegate callback and leaves the bridge unchanged; the
handlers for Active, Inactive, Visible, Invisible and FlushDraw make no call at
all, and the SyncDraw handler makes exactly one call, `endDraw(m_role)`. -/
theorem C9_null_delegate_handlers (self : AppBridge) (e : WMEvent)
    (hnull : self.m_delegate = none) :
    ∃ h, (InitWindowManager 0).2 e = some h ∧
      h self = (self, if e = .Event_SyncDraw then [Call.endDraw self.m_role] else []) ∧
      (h self).2.filter Call.isDelegate = [] := by
  cases e
  · exact ⟨h_active, rfl, by simp [h_active, hnull], by simp [h_active, hnull]⟩
  · exact ⟨h_inactive, rfl, by simp [h_inactive, hnull], by simp [h_inactive, hnull]⟩
  · exact ⟨h_visible, rfl, by simp [h_visible, hnull], by simp [h_visible, hnull]⟩
  · exact ⟨h_invisible, rfl, by simp [h_invisible, hnull], by simp [h_invisible, hnull]⟩
  · exact ⟨h_syncdraw, rfl, by simp [h_syncdraw, hnull],
      by simp [h_syncdraw, hnull, Call.isDelegate]⟩
  · exact ⟨h_flushdraw, rfl, by simp [h_flushdraw, hnull], by simp [h_flushdraw, hnull]⟩

/-- C9 as amended, at concrete inputs: the Active and the SyncDraw handler on a
`mediaplayer` bridge with a null delegate. -/
theorem C9_null_delegate_handlers_witness :
    (mediaplayer none).m_delegate = none ∧
    (∃ h, (InitWindowManager 0).2 .Event_Active = some h ∧
      h (mediaplayer none) = (mediaplayer none,
        if WMEvent.Event_Active = .Event_SyncDraw then
          [Call.endDraw (mediaplayer none).m_role] else []) ∧
      (h (mediaplayer none)).2.filter Call.isDelegate = []) ∧
    (∃ h, (InitWindowManager 0).2 .Event_SyncDraw = some h ∧
      h (mediaplayer none) = (mediaplayer none,
        if WMEvent.Event_SyncDraw = .Event_SyncDraw then
          [Call.endDraw (mediaplayer none).m_role] else []) ∧
      (h (mediaplayer none)).2.filter Call.isDelegate = []) :=
  ⟨rfl, C9_null_delegate_handlers (mediaplayer none) .Event_Active rfl,
    C9_null_delegate_handlers (mediaplayer none) .Event_SyncDraw rfl⟩

/-- C10, evaluated on the code.  The delegate is the default one, whose
`OnRequestedSurfaceID` leaves the output untouched, surface 7 is created by
process 1234 and the uninitialised local `found_surface_id` happens to hold
1234: the comparison succeeds and the surface is bound and activated.  With any
other content, 0 for one, it is not. -/
theorem C10_unset_output_can_bind :
    AppBridgeDelegate.default.OnRequestedSurfaceID (uintToInt 7) = none ∧
    OnIviControlUpdated (fun _ => 1234) 1234 (mediaplayer (some AppBridgeDelegate.default))
        .ILM_SURFACE 7 true =
      some (mediaplayer (some AppBridgeDelegate.default),
        [Call.ilm_getPropertiesOfSurface 7, Call.OnSurfaceCreated 7 1234,
         Call.OnRequestedSurfaceID 7, Call.requestSurfaceXDG "mediaplayer" 7,
         Call.activateWindow "mediaplayer" "normal.full"]) ∧
    OnIviControlUpdated (fun _ => 1234) 0 (mediaplayer (some AppBridgeDelegate.default))
        .ILM_SURFACE 7 true =
      some (mediaplayer (some AppBridgeDelegate.default),
        [Call.ilm_getPropertiesOfSurface 7, Call.OnSurfaceCreated 7 1234,
         Call.OnRequestedSurfaceID 7]) :=
  ⟨rfl, rfl, rfl⟩

end LibAppBridge
